import Mathlib

/-!
Shallow embedding of the divination core of the zen-of-changes program
(`src/main.rs`): the line/trigram/hexagram data model, the trigram
catalog `trigram_by_index`, the hexagram catalog `build_hexagram_table`
(a `HashMap<(u8, u8), HexagramData>` in the source, embedded as an
association list with a first-match lookup `table_get`), the fallback
record constructor `fallback_hexagram`, and the draw routine
`generate_result`.  The source's three random draws (`lower_idx`,
`upper_idx`, `moving_line`) are passed as explicit parameters, so
`generate_result` here is the pure function of the draws and the table
that the source computes after its calls to the RNG.  Machine `u8`
values are embedded as `Nat` (the source's only operations on them are
`match`, tuple keys and storage, all of which agree with `Nat`).
-/

/-- A single line (yao): broken (Yin) or solid (Yang).  Mirrors `enum Yao`. -/
inductive Yao where
  | Yin
  | Yang
  deriving DecidableEq, Repr

/-- Mirrors `struct Trigram`: identity, display name, display glyph and the
three lines bottom-to-top. -/
structure Trigram where
  index : Nat
  name : String
  symbol : String
  lines : List Yao
  deriving DecidableEq, Repr

/-- Mirrors `struct HexagramData`: name, glyph, judgment text, the six
line-texts (bottom line first) and the three commentary texts. -/
structure HexagramData where
  name : String
  symbol : String
  gua_ci : String
  yao_ci : List String
  yi_zhuan : String
  xi_ci_zhuan : String
  xiang_zhuan : String
  deriving DecidableEq, Repr

/-- Mirrors `struct DivinationResult`: the resolved trigrams, the moving
line index, the composed six lines bottom-to-top, and the resolved
hexagram record. -/
structure DivinationResult where
  lower : Trigram
  upper : Trigram
  moving_line : Nat
  lines : List Yao
  hexagram : HexagramData
  deriving DecidableEq, Repr

/-- Mirrors `fn trigram_by_index(i: u8) -> Trigram`: ids 1 through 7 map to
their fixed trigram, every other input falls to the wildcard arm and yields
the Kun trigram with index 8. -/
def trigram_by_index (i : Nat) : Trigram :=
  match i with
  | 1 => { index := 1, name := "乾", symbol := "☰", lines := [Yao.Yang, Yao.Yang, Yao.Yang] }
  | 2 => { index := 2, name := "兑", symbol := "☱", lines := [Yao.Yang, Yao.Yang, Yao.Yin] }
  | 3 => { index := 3, name := "离", symbol := "☲", lines := [Yao.Yang, Yao.Yin, Yao.Yang] }
  | 4 => { index := 4, name := "震", symbol := "☳", lines := [Yao.Yang, Yao.Yin, Yao.Yin] }
  | 5 => { index := 5, name := "巽", symbol := "☴", lines := [Yao.Yin, Yao.Yang, Yao.Yang] }
  | 6 => { index := 6, name := "坎", symbol := "☵", lines := [Yao.Yin, Yao.Yang, Yao.Yin] }
  | 7 => { index := 7, name := "艮", symbol := "☶", lines := [Yao.Yin, Yao.Yin, Yao.Yang] }
  | _ => { index := 8, name := "坤", symbol := "☷", lines := [Yao.Yin, Yao.Yin, Yao.Yin] }

/-- Mirrors `fn fallback_hexagram(lower: Trigram, upper: Trigram)`:
name is `format!("上{}下{}", upper.name, lower.name)`, glyph is the upper
glyph followed by the lower glyph, and every text slot is its fixed
"awaiting completion" placeholder. -/
def fallback_hexagram (lower upper : Trigram) : HexagramData :=
  { name := "上" ++ upper.name ++ "下" ++ lower.name
    symbol := upper.symbol ++ lower.symbol
    gua_ci := "该卦卦辞待补全。"
    yao_ci := ["初爻爻辞待补全。", "二爻爻辞待补全。", "三爻爻辞待补全。",
               "四爻爻辞待补全。", "五爻爻辞待补全。", "上爻爻辞待补全。"]
    yi_zhuan := "易传内容待补全。"
    xi_ci_zhuan := "系辞传内容待补全。"
    xiang_zhuan := "象传内容待补全。" }

/-- The `(1, 1)` record inserted by `build_hexagram_table`. -/
def qian_hexagram : HexagramData :=
  { name := "乾"
    symbol := "䷀"
    gua_ci := "元亨利贞。"
    yao_ci := ["初九：潜龙勿用。",
               "九二：见龙在田，利见大人。",
               "九三：君子终日乾乾，夕惕若，厉无咎。",
               "九四：或跃在渊，无咎。",
               "九五：飞龙在天，利见大人。",
               "上九：亢龙有悔。"]
    yi_zhuan := "《彖》：大哉乾元，万物资始，乃统天。"
    xi_ci_zhuan := "《系辞》：乾以易知。"
    xiang_zhuan := "《象》：天行健，君子以自强不息。" }

/-- The `(8, 8)` record inserted by `build_hexagram_table`. -/
def kun_hexagram : HexagramData :=
  { name := "坤"
    symbol := "䷁"
    gua_ci := "元亨，利牝马之贞。君子有攸往，先迷后得主，利。西南得朋，东北丧朋。安贞吉。"
    yao_ci := ["初六：履霜，坚冰至。",
               "六二：直方大，不习无不利。",
               "六三：含章可贞。或从王事，无成有终。",
               "六四：括囊；无咎，无誉。",
               "六五：黄裳，元吉。",
               "上六：龙战于野，其血玄黄。"]
    yi_zhuan := "《彖》：至哉坤元，万物资生，乃顺承天。"
    xi_ci_zhuan := "《系辞》：坤以简能。"
    xiang_zhuan := "《象》：地势坤，君子以厚德载物。" }

/-- The `(6, 6)` record inserted by `build_hexagram_table`. -/
def kan_hexagram : HexagramData :=
  { name := "坎"
    symbol := "䷜"
    gua_ci := "习坎，有孚，维心亨，行有尚。"
    yao_ci := ["初六：习坎，入于坎窞，凶。",
               "九二：坎有险，求小得。",
               "六三：来之坎坎，险且枕，入于坎窞，勿用。",
               "六四：樽酒簋贰，用缶，纳约自牖，终无咎。",
               "九五：坎不盈，祗既平，无咎。",
               "上六：系用徽纆，寘于丛棘，三岁不得，凶。"]
    yi_zhuan := "《彖》：习坎，重险也。"
    xi_ci_zhuan := "《系辞》：坎，陷也。"
    xiang_zhuan := "《象》：水洊至，习坎。君子以常德行，习教事。" }

/-- The `(3, 3)` record inserted by `build_hexagram_table`. -/
def li_hexagram : HexagramData :=
  { name := "离"
    symbol := "䷝"
    gua_ci := "利贞，亨。畜牝牛，吉。"
    yao_ci := ["初九：履错然，敬之无咎。",
               "六二：黄离，元吉。",
               "九三：日昃之离，不鼓缶而歌，则大耋之嗟，凶。",
               "九四：突如其来如，焚如，死如，弃如。",
               "六五：出涕沱若，戚嗟若，吉。",
               "上九：王用出征，有嘉折首，获匪其丑，无咎。"]
    yi_zhuan := "《彖》：离，丽也；日月丽乎天，百谷草木丽乎土。"
    xi_ci_zhuan := "《系辞》：离，附也。"
    xiang_zhuan := "《象》：明两作，离。大人以继明照于四方。" }

/-- Mirrors `fn build_hexagram_table()`: the constant catalog, keyed by
`(upper, lower)` trigram identity, with the four records inserted by the
source in its insertion order. -/
def build_hexagram_table : List ((Nat × Nat) × HexagramData) :=
  [((1, 1), qian_hexagram), ((8, 8), kun_hexagram),
   ((6, 6), kan_hexagram), ((3, 3), li_hexagram)]

/-- Embedding of `HashMap::get` on the catalog: first entry whose key equals
the query (the source's keys are pairwise distinct, so first-match lookup
agrees with the hash map). -/
def table_get (t : List ((Nat × Nat) × HexagramData)) (k : Nat × Nat) :
    Option HexagramData :=
  match t with
  | [] => none
  | (k2, v) :: rest => if k2 = k then some v else table_get rest k

/-- Mirrors `fn generate_result(table)` after its three RNG draws, which
are passed here as `lower_idx`, `upper_idx`, `moving_line`: resolve the two
trigrams, compose the six lines (positions 0-2 from the lower trigram,
3-5 from the upper, matching the element-wise writes into `[Yao::Yin; 6]`),
look up the catalog at `(upper_idx, lower_idx)` and fall back to
`fallback_hexagram` when the key is absent. -/
def generate_result (table : List ((Nat × Nat) × HexagramData))
    (lower_idx upper_idx moving_line : Nat) : DivinationResult :=
  let lower := trigram_by_index lower_idx
  let upper := trigram_by_index upper_idx
  let lines := [lower.lines.getD 0 Yao.Yin, lower.lines.getD 1 Yao.Yin,
                lower.lines.getD 2 Yao.Yin, upper.lines.getD 0 Yao.Yin,
                upper.lines.getD 1 Yao.Yin, upper.lines.getD 2 Yao.Yin]
  let hexagram := (table_get table (upper_idx, lower_idx)).getD
    (fallback_hexagram lower upper)
  { lower := lower
    upper := upper
    moving_line := moving_line
    lines := lines
    hexagram := hexagram }

/-- C1: for every id in 1..=8, `trigram_by_index id` has index field equal
to the id, exactly 3 lines, the canonical bottom-to-top line sequence of
the traditional ordering (Solid read as Yang, Broken as Yin), and the 8
line sequences are pairwise distinct. -/
theorem trigram_catalog_canonical :
    (∀ k : Fin 8, (trigram_by_index (k.1 + 1)).index = k.1 + 1 ∧
      (trigram_by_index (k.1 + 1)).lines.length = 3) ∧
    (trigram_by_index 1).lines = [Yao.Yang, Yao.Yang, Yao.Yang] ∧
    (trigram_by_index 2).lines = [Yao.Yang, Yao.Yang, Yao.Yin] ∧
    (trigram_by_index 3).lines = [Yao.Yang, Yao.Yin, Yao.Yang] ∧
    (trigram_by_index 4).lines = [Yao.Yang, Yao.Yin, Yao.Yin] ∧
    (trigram_by_index 5).lines = [Yao.Yin, Yao.Yang, Yao.Yang] ∧
    (trigram_by_index 6).lines = [Yao.Yin, Yao.Yang, Yao.Yin] ∧
    (trigram_by_index 7).lines = [Yao.Yin, Yao.Yin, Yao.Yang] ∧
    (trigram_by_index 8).lines = [Yao.Yin, Yao.Yin, Yao.Yin] ∧
    ((List.finRange 8).map (fun k : Fin 8 => (trigram_by_index (k.1 + 1)).lines)).Nodup := by
  decide

/-- C2: for every draw, the composed six lines of the result are the lower
trigram's three lines followed by the upper trigram's three lines, both
bottom-to-top. -/
theorem composition_law :
    ∀ lo up : Fin 8, ∀ m : Fin 6,
      (generate_result build_hexagram_table (lo.1 + 1) (up.1 + 1) (m.1 + 1)).lines.take 3 =
        (trigram_by_index (lo.1 + 1)).lines ∧
      (generate_result build_hexagram_table (lo.1 + 1) (up.1 + 1) (m.1 + 1)).lines.drop 3 =
        (trigram_by_index (up.1 + 1)).lines := by
  decide

/-- C3: the catalog is consulted at key `(upper_idx, lower_idx)` — upper
first — for every table and every draw, and in particular a draw with
lower id 2 and upper id 5 against a table holding distinct records at
`(5, 2)` and `(2, 5)` returns the record stored at `(5, 2)`. -/
theorem lookup_key_is_upper_then_lower :
    (∀ t : List ((Nat × Nat) × HexagramData), ∀ lo up m : Nat,
      (generate_result t lo up m).hexagram =
        (table_get t (up, lo)).getD
          (fallback_hexagram (trigram_by_index lo) (trigram_by_index up))) ∧
    (∀ a b : HexagramData, ∀ m : Nat,
      (generate_result [((5, 2), a), ((2, 5), b)] 2 5 m).hexagram = a) := by
  exact ⟨fun t lo up m => rfl, fun a b m => rfl⟩

/-- C4: the draw is total over every triple of in-range random values and
assembles a complete result; when the key `(upper, lower)` is present in
the shipped catalog the returned hexagram is the stored record, and when
it is absent the returned hexagram is the synthesized fallback record. -/
theorem draw_total_and_lookup_or_fallback :
    ∀ lo up : Fin 8, ∀ m : Fin 6,
      (generate_result build_hexagram_table (lo.1 + 1) (up.1 + 1) (m.1 + 1)).lower =
        trigram_by_index (lo.1 + 1) ∧
      (generate_result build_hexagram_table (lo.1 + 1) (up.1 + 1) (m.1 + 1)).upper =
        trigram_by_index (up.1 + 1) ∧
      (generate_result build_hexagram_table (lo.1 + 1) (up.1 + 1) (m.1 + 1)).moving_line =
        m.1 + 1 ∧
      (∀ h : HexagramData,
        table_get build_hexagram_table (up.1 + 1, lo.1 + 1) = some h →
        (generate_result build_hexagram_table (lo.1 + 1) (up.1 + 1) (m.1 + 1)).hexagram = h) ∧
      (table_get build_hexagram_table (up.1 + 1, lo.1 + 1) = none →
        (generate_result build_hexagram_table (lo.1 + 1) (up.1 + 1) (m.1 + 1)).hexagram =
          fallback_hexagram (trigram_by_index (lo.1 + 1)) (trigram_by_index (up.1 + 1))) := by
  intro lo up m
  refine ⟨rfl, rfl, rfl, ?_, ?_⟩
  · intro h hsome
    show (table_get build_hexagram_table (up.1 + 1, lo.1 + 1)).getD
      (fallback_hexagram (trigram_by_index (lo.1 + 1)) (trigram_by_index (up.1 + 1))) = h
    rw [hsome]
    rfl
  · intro hnone
    show (table_get build_hexagram_table (up.1 + 1, lo.1 + 1)).getD
      (fallback_hexagram (trigram_by_index (lo.1 + 1)) (trigram_by_index (up.1 + 1))) =
      fallback_hexagram (trigram_by_index (lo.1 + 1)) (trigram_by_index (up.1 + 1))
    rw [hnone]
    rfl

/-- C4 witness: at ids lower 1, upper 1 the key `(1, 1)` is present and the
stored Qian record is returned; at ids lower 3, upper 2 the key `(2, 3)` is
absent and the fallback record is returned. -/
theorem draw_total_and_lookup_or_fallback_witness :
    (generate_result build_hexagram_table 1 1 1).hexagram = qian_hexagram ∧
    (generate_result build_hexagram_table 3 2 1).hexagram =
      fallback_hexagram (trigram_by_index 3) (trigram_by_index 2) :=
  ⟨(draw_total_and_lookup_or_fallback 0 0 0).2.2.2.1 qian_hexagram rfl,
   (draw_total_and_lookup_or_fallback 2 1 0).2.2.2.2 rfl⟩

/-- C5: for every trigram pair absent from the catalog, the fallback
hexagram's name is the fixed template upper-name-then-lower-name, its glyph
is the upper glyph followed by the lower glyph, its judgment and three
commentary texts are the fixed "awaiting completion" placeholders, its six
line-texts are pairwise distinct and each starts with its positional label
(初/二/三/四/五/上), and the draw returns exactly this record for every
moving line, so name and glyph depend only on the two trigram ids. -/
theorem fallback_record_shape (lo up : Fin 8)
    (hab : table_get build_hexagram_table (up.1 + 1, lo.1 + 1) = none) :
    (fallback_hexagram (trigram_by_index (lo.1 + 1)) (trigram_by_index (up.1 + 1))).name =
      "上" ++ (trigram_by_index (up.1 + 1)).name ++ "下" ++ (trigram_by_index (lo.1 + 1)).name ∧
    (fallback_hexagram (trigram_by_index (lo.1 + 1)) (trigram_by_index (up.1 + 1))).symbol =
      (trigram_by_index (up.1 + 1)).symbol ++ (trigram_by_index (lo.1 + 1)).symbol ∧
    (fallback_hexagram (trigram_by_index (lo.1 + 1)) (trigram_by_index (up.1 + 1))).gua_ci =
      "该卦卦辞待补全。" ∧
    (fallback_hexagram (trigram_by_index (lo.1 + 1)) (trigram_by_index (up.1 + 1))).yi_zhuan =
      "易传内容待补全。" ∧
    (fallback_hexagram (trigram_by_index (lo.1 + 1)) (trigram_by_index (up.1 + 1))).xi_ci_zhuan =
      "系辞传内容待补全。" ∧
    (fallback_hexagram (trigram_by_index (lo.1 + 1)) (trigram_by_index (up.1 + 1))).xiang_zhuan =
      "象传内容待补全。" ∧
    (fallback_hexagram (trigram_by_index (lo.1 + 1)) (trigram_by_index (up.1 + 1))).yao_ci.length = 6 ∧
    (fallback_hexagram (trigram_by_index (lo.1 + 1)) (trigram_by_index (up.1 + 1))).yao_ci.Nodup ∧
    (∀ i : Fin 6,
      ((fallback_hexagram (trigram_by_index (lo.1 + 1)) (trigram_by_index (up.1 + 1))).yao_ci.getD
        i.1 "").data.head? = some (['初', '二', '三', '四', '五', '上'].getD i.1 ' ')) ∧
    (∀ m : Fin 6,
      (generate_result build_hexagram_table (lo.1 + 1) (up.1 + 1) (m.1 + 1)).hexagram =
        fallback_hexagram (trigram_by_index (lo.1 + 1)) (trigram_by_index (up.1 + 1))) := by
  refine ⟨rfl, rfl, rfl, rfl, rfl, rfl, rfl, ?_, ?_, ?_⟩
  · show (["初爻爻辞待补全。", "二爻爻辞待补全。", "三爻爻辞待补全。",
           "四爻爻辞待补全。", "五爻爻辞待补全。", "上爻爻辞待补全。"] : List String).Nodup
    decide
  · intro i
    fin_cases i <;> rfl
  intro m
  show (table_get build_hexagram_table (up.1 + 1, lo.1 + 1)).getD
    (fallback_hexagram (trigram_by_index (lo.1 + 1)) (trigram_by_index (up.1 + 1))) =
    fallback_hexagram (trigram_by_index (lo.1 + 1)) (trigram_by_index (up.1 + 1))
  rw [hab]
  rfl

/-- C5 witness: the pair upper 5, lower 2 is absent from the catalog; the
fallback record there has the template name, the concatenated glyph, and
the draw at moving line 1 returns it. -/
theorem fallback_record_shape_witness :
    (fallback_hexagram (trigram_by_index 2) (trigram_by_index 5)).name = "上巽下兑" ∧
    (fallback_hexagram (trigram_by_index 2) (trigram_by_index 5)).symbol = "☴☱" ∧
    (generate_result build_hexagram_table 2 5 1).hexagram =
      fallback_hexagram (trigram_by_index 2) (trigram_by_index 5) :=
  ⟨(fallback_record_shape 1 4 rfl).1,
   (fallback_record_shape 1 4 rfl).2.1,
   (fallback_record_shape 1 4 rfl).2.2.2.2.2.2.2.2.2 0⟩

/-- C6: the catalog holds exactly the four keys (1,1), (8,8), (6,6) and
(3,3) — all with upper equal to lower — and every other pair in
1..=8 × 1..=8 is absent. -/
theorem hexagram_table_exact_keys :
    build_hexagram_table.map Prod.fst = [(1, 1), (8, 8), (6, 6), (3, 3)] ∧
    ∀ u l : Fin 8,
      ((table_get build_hexagram_table (u.1 + 1, l.1 + 1)).isSome = true ↔
        ((u.1 + 1, l.1 + 1) = (1, 1) ∨ (u.1 + 1, l.1 + 1) = (8, 8) ∨
         (u.1 + 1, l.1 + 1) = (6, 6) ∨ (u.1 + 1, l.1 + 1) = (3, 3))) := by
  decide

/-- C7: the draw with lower id 1 and upper id 1 resolves both trigrams to
Qian (乾, all three lines solid), composes six solid lines, and the catalog
lookup at (1, 1) yields the Qian record with the all-solid glyph ䷀ and
judgment text 元亨利贞。 -/
theorem pure_qian_scenario :
    ∀ m : Fin 6,
      (generate_result build_hexagram_table 1 1 (m.1 + 1)).lower.name = "乾" ∧
      (generate_result build_hexagram_table 1 1 (m.1 + 1)).lower.lines =
        [Yao.Yang, Yao.Yang, Yao.Yang] ∧
      (generate_result build_hexagram_table 1 1 (m.1 + 1)).upper.name = "乾" ∧
      (generate_result build_hexagram_table 1 1 (m.1 + 1)).upper.lines =
        [Yao.Yang, Yao.Yang, Yao.Yang] ∧
      (generate_result build_hexagram_table 1 1 (m.1 + 1)).lines =
        [Yao.Yang, Yao.Yang, Yao.Yang, Yao.Yang, Yao.Yang, Yao.Yang] ∧
      (generate_result build_hexagram_table 1 1 (m.1 + 1)).hexagram = qian_hexagram ∧
      (generate_result build_hexagram_table 1 1 (m.1 + 1)).hexagram.name = "乾" ∧
      (generate_result build_hexagram_table 1 1 (m.1 + 1)).hexagram.symbol = "䷀" ∧
      (generate_result build_hexagram_table 1 1 (m.1 + 1)).hexagram.gua_ci = "元亨利贞。" := by
  decide

/-- C8: the draw with lower id 8 and upper id 8 composes six broken lines,
and the catalog lookup at (8, 8) yields the Kun (坤) record whose judgment
text begins with 元亨，利牝马之贞。 -/
theorem pure_kun_scenario :
    ∀ m : Fin 6,
      (generate_result build_hexagram_table 8 8 (m.1 + 1)).lines =
        [Yao.Yin, Yao.Yin, Yao.Yin, Yao.Yin, Yao.Yin, Yao.Yin] ∧
      (generate_result build_hexagram_table 8 8 (m.1 + 1)).hexagram = kun_hexagram ∧
      (generate_result build_hexagram_table 8 8 (m.1 + 1)).hexagram.name = "坤" ∧
      ("元亨，利牝马之贞。".data.isPrefixOf
        (generate_result build_hexagram_table 8 8 (m.1 + 1)).hexagram.gua_ci.data) = true := by
  decide

/-- C9: every result's moving line lies in [1, 6], and the resolved
hexagram record is independent of the moving line: two draws agreeing on
the trigram ids but differing in moving line return identical records. -/
theorem moving_line_range_and_independence :
    ∀ lo up : Fin 8, ∀ m : Fin 6,
      1 ≤ (generate_result build_hexagram_table (lo.1 + 1) (up.1 + 1) (m.1 + 1)).moving_line ∧
      (generate_result build_hexagram_table (lo.1 + 1) (up.1 + 1) (m.1 + 1)).moving_line ≤ 6 ∧
      ∀ m2 : Fin 6,
        (generate_result build_hexagram_table (lo.1 + 1) (up.1 + 1) (m2.1 + 1)).hexagram =
          (generate_result build_hexagram_table (lo.1 + 1) (up.1 + 1) (m.1 + 1)).hexagram := by
  intro lo up m
  refine ⟨?_, ?_, ?_⟩
  · show 1 ≤ m.1 + 1
    omega
  · show m.1 + 1 ≤ 6
    have hm := m.2
    omega
  · intro m2
    rfl

/-- C10: `trigram_by_index` is total and clamps out-of-range ids: every
input that is not one of 1..=7 (0 or anything at least 8) yields the Kun
trigram with index 8, name 坤 and three broken lines. -/
theorem out_of_range_id_clamps_to_kun :
    ∀ i : Nat, i = 0 ∨ 8 ≤ i →
      trigram_by_index i =
        { index := 8, name := "坤", symbol := "☷", lines := [Yao.Yin, Yao.Yin, Yao.Yin] } := by
  intro i h
  rcases h with h0 | h8
  · subst h0
    rfl
  · obtain ⟨k, rfl⟩ : ∃ k, i = k + 8 := ⟨i - 8, by omega⟩
    rfl

/-- C10 witness: inputs 0, 9 and 200 all yield the clamped Kun trigram. -/
theorem out_of_range_id_clamps_to_kun_witness :
    trigram_by_index 0 =
      { index := 8, name := "坤", symbol := "☷", lines := [Yao.Yin, Yao.Yin, Yao.Yin] } ∧
    trigram_by_index 9 =
      { index := 8, name := "坤", symbol := "☷", lines := [Yao.Yin, Yao.Yin, Yao.Yin] } ∧
    trigram_by_index 200 =
      { index := 8, name := "坤", symbol := "☷", lines := [Yao.Yin, Yao.Yin, Yao.Yin] } :=
  ⟨out_of_range_id_clamps_to_kun 0 (Or.inl rfl),
   out_of_range_id_clamps_to_kun 9 (Or.inr (by omega)),
   out_of_range_id_clamps_to_kun 200 (Or.inr (by omega))⟩
